import Mathlib

/-!
# Verification of the tasks5 storage core

Shallow embedding of `src/tasks5/src/tasks5/models.py` and
`src/tasks5/src/tasks5/storage.py`.

Modelling choices:
* A value decoded from JSON by Python's `json.load` is a `JVal`
  (null / bool / int / string / array / object).  JSON objects produced by
  `json.load` have unique keys, so association-list lookup by first match is
  faithful; numbers are modelled as integers (no claim involves floats).
* `str()`, `bool()` truthiness and `list()` iteration of such a value are
  modelled by `pyStr`, `pyBool`, `pyIter`.  `list()` of a non-iterable value
  (None, a bool, a number) raises `TypeError`; `.get` on a non-dict raises
  `AttributeError`; both are modelled by `PyErr`.
* The file system visible to one `Storage` instance is `Fs`: the content of
  `self.path` (`real`) and of `self.path + ".tmp"` (`tmp`), each either absent
  or holding bytes that parse as a JSON document (`jsonDoc`) or do not
  (`invalidText`, on which `json.load` raises `JSONDecodeError`).  The two
  paths are distinct strings, hence separate fields.
* Nondeterministic OS failures are injected explicitly: a `readFault` flag for
  an `OSError` while opening/reading in `load`, and a `SaveFault` selecting
  where `save` is interrupted.  The current UTC timestamp `utc_now_iso()` is
  passed in as a `now : String` parameter.
-/

namespace Tasks5

/-- A Python value obtained by decoding JSON (`json.load`). -/
inductive JVal where
  | null
  | bool (b : Bool)
  | num (n : Int)
  | str (s : String)
  | arr (xs : List JVal)
  | obj (kvs : List (String × JVal))

/-- Whether a `JVal` is a JSON string. -/
def JVal.isStr : JVal → Bool
  | .str _ => true
  | _ => false

mutual

/-- Python `repr()` of a decoded JSON value (used by `str()` on containers).
Escaping of quotes and backslashes inside strings is not modelled; no claim
depends on the rendering of containers. -/
def pyRepr : JVal → String
  | .null => "None"
  | .bool true => "True"
  | .bool false => "False"
  | .num n => toString n
  | .str s => "'" ++ s ++ "'"
  | .arr xs => "[" ++ pyReprArr xs ++ "]"
  | .obj kvs => "\x7b" ++ pyReprObj kvs ++ "\x7d"

/-- Comma-separated `repr`s of the elements of a Python list. -/
def pyReprArr : List JVal → String
  | [] => ""
  | [x] => pyRepr x
  | x :: xs => pyRepr x ++ ", " ++ pyReprArr xs

/-- Comma-separated `repr`s of the entries of a Python dict. -/
def pyReprObj : List (String × JVal) → String
  | [] => ""
  | [(k, v)] => "'" ++ k ++ "': " ++ pyRepr v
  | (k, v) :: kvs => "'" ++ k ++ "': " ++ pyRepr v ++ ", " ++ pyReprObj kvs

end

/-- Python `str()` of a decoded JSON value.  Total: `str()` never raises. -/
def pyStr : JVal → String
  | .str s => s
  | v => pyRepr v

/-- Python `bool()` truthiness of a decoded JSON value.  Total. -/
def pyBool : JVal → Bool
  | .null => false
  | .bool b => b
  | .num n => n != 0
  | .str s => s != ""
  | .arr xs => !xs.isEmpty
  | .obj kvs => !kvs.isEmpty

/-- An uncaught Python runtime exception. -/
inductive PyErr where
  | typeError       -- e.g. `list(3)`: argument is not iterable
  | attributeError  -- e.g. `(3).get(...)`: no attribute `get`
deriving DecidableEq

/-- Python iteration (`list(v)`, `for t in v`) over a decoded JSON value:
a list yields its elements, a string its one-character substrings, a dict its
keys; None, bools and numbers raise `TypeError`. -/
def pyIter : JVal → Except PyErr (List JVal)
  | .arr xs => .ok xs
  | .str s => .ok (s.toList.map fun c => .str (String.singleton c))
  | .obj kvs => .ok (kvs.map fun kv => .str kv.1)
  | _ => .error .typeError

/-- `True` when `list(v)` succeeds. -/
def pyIterOk (v : JVal) : Bool :=
  match pyIter v with
  | .ok _ => true
  | .error _ => false

/-- Python `dict.get(k)` (returns `None` as the Lean `none` when absent). -/
def dictGet? (kvs : List (String × JVal)) (k : String) : Option JVal :=
  match kvs.find? (fun kv => kv.1 == k) with
  | some kv => some kv.2
  | none => none

/-- Python `dict.get(k, d)`. -/
def dictGetD (kvs : List (String × JVal)) (k : String) (d : JVal) : JVal :=
  (dictGet? kvs k).getD d

/-- A character Python's `str.strip()` removes: ASCII whitespace
(space, tab, newline, carriage return, vertical tab, form feed).  Unicode
whitespace beyond ASCII is not modelled; no claim involves it. -/
def pyIsSpace (c : Char) : Bool :=
  c = ' ' || c = '\t' || c = '\n' || c = '\r' || c = '\x0b' || c = '\x0c'

/-- Python `s.strip()`: drop leading and trailing whitespace. -/
def pyStrip (s : String) : String :=
  ⟨((s.data.dropWhile pyIsSpace).reverse.dropWhile pyIsSpace).reverse⟩

/-- The `Task` dataclass of `models.py`.  The dataclass does not enforce the
field annotations, and `from_dict` can populate `tags` with arbitrary decoded
values, so `tags` is a list of `JVal` (strings in well-formed data). -/
structure Task where
  id : String
  description : String
  created : String
  completed : Bool
  tags : List JVal

/-- `Task.to_dict`: the emitted map copies `tags` (`list(self.tags)`); in the
pure model the copy is the list itself. -/
def Task.toDict (t : Task) : JVal :=
  .obj [("id", .str t.id),
        ("description", .str t.description),
        ("created", .str t.created),
        ("completed", .bool t.completed),
        ("tags", .arr t.tags)]

/-- `Task.from_dict(data)`.  `now` is `utc_now_iso()`, the default for a
missing `created`.  In Python the keyword arguments are evaluated in order
with `tags` last; only `list(...)` on `tags` can raise, so hoisting that match
is observably equivalent.  Calling `.get` on a non-dict raises
`AttributeError`. -/
def Task.fromDict (data : JVal) (now : String) : Except PyErr Task :=
  match data with
  | .obj kvs =>
      match pyIter (dictGetD kvs "tags" (.arr [])) with
      | .error e => .error e
      | .ok tags =>
          .ok { id := pyStr (dictGetD kvs "id" (.str ""))
              , description := pyStr (dictGetD kvs "description" (.str ""))
              , created := pyStr (dictGetD kvs "created" (.str now))
              , completed := pyBool (dictGetD kvs "completed" (.bool false))
              , tags := tags }
  | _ => .error .attributeError

/-- `ValueError("description must be non-empty")` raised by `Task.create`. -/
inductive CreateErr where
  | validationError
deriving DecidableEq

/-- `Task.create(description, tags, id, created)`.  `genId` stands for the
freshly generated `uuid.uuid4().hex` and `now` for `utc_now_iso()`.
`not description or not description.strip()` is `description = "" ∨`
`pyStrip description = ""`.  Python's `tags or []` yields `[]` when `tags` is
`None` or the empty list. -/
def Task.create (description : String) (tags : Option (List JVal))
    (id : Option String) (created : Option String)
    (genId : String) (now : String) : Except CreateErr Task :=
  if description = "" ∨ pyStrip description = "" then
    .error .validationError
  else
    .ok { id := id.getD genId
        , description := pyStrip description
        , created := created.getD now
        , completed := false
        , tags := match tags with
                  | some ts => if ts.isEmpty then [] else ts
                  | none => [] }

/-- The spec's data-model notion of a valid task: non-blank description and
string tags (tags are "an ordered sequence of strings"). -/
def Task.Valid (t : Task) : Prop :=
  pyStrip t.description ≠ "" ∧ t.tags.all JVal.isStr = true

instance (t : Task) : Decidable t.Valid := by
  unfold Task.Valid; infer_instance

/-- Content of one file: either bytes parsing as the JSON document `v`, or
bytes on which `json.load` raises `JSONDecodeError`. -/
inductive FileContent where
  | jsonDoc (v : JVal)
  | invalidText (s : String)

/-- The two paths a `Storage` instance touches: `self.path` (`real`) and
`self.path + ".tmp"` (`tmp`); `none` means the path does not exist. -/
structure Fs where
  real : Option FileContent
  tmp : Option FileContent

/-- Errors escaping `Storage.load` / `Storage.save`.  The three `StorageError`
raise sites carry distinct messages and are modelled as distinct constructors:
`corruptData` = "invalid JSON in ...", `ioError` = "could not read/write ...",
`schemaError` = "unexpected file format in ...".  `pyError` is an uncaught
Python exception (e.g. `TypeError` from `Task.from_dict`). -/
inductive StorageErr where
  | corruptData
  | ioError
  | schemaError
  | pyError (e : PyErr)
deriving DecidableEq

/-- `data.get("tasks") if isinstance(data, dict) else None`.  A JSON `null`
value decodes to Python `None`, indistinguishable from a missing key. -/
def getTasksData (data : JVal) : Option JVal :=
  match data with
  | .obj kvs =>
      match dictGet? kvs "tasks" with
      | some .null => none
      | some v => some v
      | none => none
  | _ => none

/-- `[Task.from_dict(t) for t in items]`: decodes in order, aborting at the
first uncaught exception. -/
def decodeList (items : List JVal) (now : String) : Except PyErr (List Task) :=
  match items with
  | [] => .ok []
  | x :: xs =>
      match Task.fromDict x now with
      | .error e => .error e
      | .ok t =>
          match decodeList xs now with
          | .error e => .error e
          | .ok ts => .ok (t :: ts)

/-- `Storage.load`.  `readFault` injects an `OSError` while opening/reading an
existing file (caught and re-raised as `StorageError`, here `ioError`). -/
def Storage.load (fs : Fs) (readFault : Bool) (now : String) :
    Except StorageErr (List Task) :=
  match fs.real with
  | none => .ok []
  | some content =>
      if readFault then .error .ioError
      else match content with
        | .invalidText _ => .error .corruptData
        | .jsonDoc data =>
            match getTasksData data with
            | none => .error .schemaError
            | some tasksData =>
                match pyIter tasksData with
                | .error e => .error (.pyError e)
                | .ok items =>
                    match decodeList items now with
                    | .error e => .error (.pyError e)
                    | .ok tasks => .ok tasks

/-- The `"updated"` field written by `save`:
`Task.create("_meta_", created=None).created`, which is `utc_now_iso()`. -/
def saveUpdated (now : String) : String :=
  match Task.create "_meta_" none none none "" now with
  | .ok t => t.created
  | .error _ => now

/-- The document `save` serializes:
`{"version": "1.0", "updated": ..., "tasks": [t.to_dict() for t in tasks]}`. -/
def saveDoc (tasks : List Task) (now : String) : JVal :=
  .obj [("version", .str "1.0"),
        ("updated", .str (saveUpdated now)),
        ("tasks", .arr (tasks.map Task.toDict))]

/-- Where an injected `OSError` interrupts `Storage.save`. -/
inductive SaveFault where
  | noFault     -- normal run
  | writeFail   -- during open / json.dump / flush / fsync on the .tmp path
  | renameFail  -- during os.replace(tmp_path, self.path)
deriving DecidableEq

/-- `Storage.save`.  The code only ever opens `tmp_path = self.path + ".tmp"`;
`self.path` is touched solely by the atomic `os.replace`.  An interrupted
write leaves at most truncated bytes at the `.tmp` path; a failed replace
leaves the fully written `.tmp` as litter.  `_ensure_parent` is not modelled
(no claim involves the parent directory).  Returns the outcome together with
the resulting file-system state. -/
def Storage.save (fs : Fs) (tasks : List Task) (now : String) (fault : SaveFault) :
    Except StorageErr Unit × Fs :=
  let doc := saveDoc tasks now
  match fault with
  | .writeFail => (.error .ioError, { fs with tmp := some (.invalidText "") })
  | .renameFail => (.error .ioError, { fs with tmp := some (.jsonDoc doc) })
  | .noFault => (.ok (), { real := some (.jsonDoc doc), tmp := none })

/-- `Storage.add_task`: `load()`, append, `save()`, in a run with no injected
fault. -/
def Storage.addTask (fs : Fs) (t : Task) (now : String) : Except StorageErr Fs :=
  match Storage.load fs false now with
  | .error e => .error e
  | .ok tasks =>
      match Storage.save fs (tasks ++ [t]) now .noFault with
      | (.ok _, fs') => .ok fs'
      | (.error e, _) => .error e

/-- The linear scan of `get_task_by_id`: first task whose `id` equals `i`. -/
def findById : List Task → String → Option Task
  | [], _ => none
  | t :: ts, i => if t.id = i then some t else findById ts i

/-- `Storage.get_task_by_id`: `load()` then linear scan, `None` if absent. -/
def Storage.getTaskById (fs : Fs) (readFault : Bool) (now : String) (i : String) :
    Except StorageErr (Option Task) :=
  match Storage.load fs readFault now with
  | .error e => .error e
  | .ok tasks => .ok (findById tasks i)

/-! ## Helper lemmas -/

/-- Decoding the map emitted by `to_dict` recovers the task exactly. -/
theorem Task.fromDict_toDict (t : Task) (now : String) :
    Task.fromDict (Task.toDict t) now = .ok t := rfl

/-- Decoding a list of emitted maps recovers the task list exactly. -/
theorem decodeList_map_toDict (T : List Task) (now : String) :
    decodeList (T.map Task.toDict) now = .ok T := by
  induction T with
  | nil => rfl
  | cons t ts ih => simp [decodeList, Task.fromDict_toDict, ih]

/-- Loading a file holding a document written by `save` recovers the saved
task list exactly. -/
theorem load_saveDoc (T : List Task) (tmp : Option FileContent) (nowS nowL : String) :
    Storage.load ⟨some (.jsonDoc (saveDoc T nowS)), tmp⟩ false nowL = .ok T := by
  simp [Storage.load, saveDoc, getTasksData, dictGet?, dictGetD, pyIter,
    decodeList_map_toDict]

/-! ## Claim theorems -/

/-- A concrete task, as built by the end-to-end scenario
`Create("Test task", tags=["unit"])`. -/
def sampleTask : Task :=
  { id := "id-1", description := "Test task",
    created := "2024-01-01T00:00:00+00:00", completed := false,
    tags := [JVal.str "unit"] }

/-- C1.  Round-trip: for every sequence of valid tasks `T`, `save(T)` on any
starting state succeeds, and `load()` on the same path afterwards yields a
sequence equal to `T` element-by-element (all five fields), in order. -/
theorem roundtrip_save_load (T : List Task) (fs : Fs) (nowS nowL : String)
    (_hval : ∀ t ∈ T, t.Valid) :
    (Storage.save fs T nowS .noFault).1 = .ok ()
    ∧ Storage.load (Storage.save fs T nowS .noFault).2 false nowL = .ok T :=
  ⟨rfl, load_saveDoc T none nowS nowL⟩

/-- Witness for C1 at the end-to-end scenario task. -/
theorem roundtrip_save_load_witness :
    (∀ t ∈ [sampleTask], t.Valid)
    ∧ ((Storage.save ⟨none, none⟩ [sampleTask] "N" .noFault).1 = .ok ()
       ∧ Storage.load (Storage.save ⟨none, none⟩ [sampleTask] "N" .noFault).2 false "M"
           = .ok [sampleTask]) :=
  ⟨by decide, roundtrip_save_load [sampleTask] ⟨none, none⟩ "N" "M" (by decide)⟩

/-- C2.  Atomicity of `save` under failure injection: if the write-to-temp or
rename step fails, `save` raises (`StorageError`, the `ioError` kind) and the
real backing path's content (or absence) is exactly what it was before; and in
every run the real path holds either the old content or the complete new
document — never a half-written file. -/
theorem save_failure_atomic (fs : Fs) (T : List Task) (now : String)
    (fault : SaveFault) (h : fault ≠ SaveFault.noFault) :
    ((Storage.save fs T now fault).1 = .error .ioError
      ∧ (Storage.save fs T now fault).2.real = fs.real)
    ∧ ∀ fault', (Storage.save fs T now fault').2.real = fs.real
        ∨ (Storage.save fs T now fault').2.real = some (.jsonDoc (saveDoc T now)) := by
  constructor
  · cases fault with
    | noFault => exact absurd rfl h
    | writeFail => exact ⟨rfl, rfl⟩
    | renameFail => exact ⟨rfl, rfl⟩
  · intro fault'
    cases fault' with
    | noFault => exact Or.inr rfl
    | writeFail => exact Or.inl rfl
    | renameFail => exact Or.inl rfl

/-- Witness for C2: an interrupted write leaves pre-existing content intact. -/
theorem save_failure_atomic_witness :
    SaveFault.writeFail ≠ SaveFault.noFault
    ∧ (Storage.save ⟨some (.invalidText "old"), none⟩ [sampleTask] "N" .writeFail).2.real
        = some (.invalidText "old") :=
  ⟨by decide,
   (save_failure_atomic ⟨some (.invalidText "old"), none⟩ [sampleTask] "N" .writeFail
      (by decide)).1.2⟩

/-- C6.  First-run behaviour: on a nonexistent backing path, `load` returns
the empty sequence and never raises, whatever the state of the `.tmp` path or
the injected read fault. -/
theorem load_absent_path (tmp : Option FileContent) (readFault : Bool) (now : String) :
    Storage.load ⟨none, tmp⟩ readFault now = .ok [] := rfl

/-- C7.  `add_task` is exactly `load()`, append, `save()`; and two `add_task`
calls starting from an absent backing file leave a state whose `load()`
returns exactly `[a, b]` in that order. -/
theorem addTask_compose_append :
    (∀ fs t now, Storage.addTask fs t now =
      match Storage.load fs false now with
      | .error e => .error e
      | .ok tasks =>
          match Storage.save fs (tasks ++ [t]) now .noFault with
          | (.ok _, fs') => .ok fs'
          | (.error e, _) => .error e)
    ∧ ∀ a b n₁ n₂ n₃, ∃ fs₁ fs₂,
        Storage.addTask ⟨none, none⟩ a n₁ = .ok fs₁
        ∧ Storage.addTask fs₁ b n₂ = .ok fs₂
        ∧ Storage.load fs₂ false n₃ = .ok [a, b] := by
  refine ⟨fun fs t now => rfl, fun a b n₁ n₂ n₃ => ?_⟩
  exact ⟨⟨some (.jsonDoc (saveDoc [a] n₁)), none⟩,
         ⟨some (.jsonDoc (saveDoc [a, b] n₂)), none⟩, rfl, rfl, rfl⟩

/-- C4.  `create` fails with the validation error exactly when the description
is empty or whitespace-only after stripping; otherwise it succeeds and the
resulting description is the stripped input. -/
theorem create_validation (d : String) (tags : Option (List JVal))
    (i c : Option String) (genId now : String) :
    if pyStrip d = "" then
      Task.create d tags i c genId now = .error .validationError
    else
      ∃ t, Task.create d tags i c genId now = .ok t ∧ t.description = pyStrip d := by
  by_cases h : pyStrip d = ""
  · rw [if_pos h]
    unfold Task.create
    rw [if_pos (Or.inr h)]
  · rw [if_neg h]
    have hd : ¬(d = "" ∨ pyStrip d = "") := by
      rintro (h1 | h2)
      · exact h (by rw [h1]; rfl)
      · exact h h2
    refine ⟨{ id := i.getD genId, description := pyStrip d, created := c.getD now,
              completed := false,
              tags := match tags with
                      | some ts => if ts.isEmpty then [] else ts
                      | none => [] }, ?_, rfl⟩
    unfold Task.create
    rw [if_neg hd]

/-- Witness for C4: `Create(" hi ")` succeeds with description `"hi"`. -/
theorem create_validation_witness :
    ¬pyStrip " hi " = ""
    ∧ ∃ t, Task.create " hi " none none none "g" "n" = .ok t
        ∧ t.description = "hi" := by
  have h := create_validation " hi " none none none "g" "n"
  rw [if_neg (by decide)] at h
  obtain ⟨t, ht, hdesc⟩ := h
  exact ⟨by decide, t, ht, hdesc.trans (by decide)⟩

/-- C3.  Error taxonomy of `load` on an existing path: an unreadable file
yields the `ioError` kind, unparseable content yields `corruptData`, and a
parsed document that is not a mapping or lacks a `tasks` key yields
`schemaError`; the three kinds are pairwise distinct, and unparseable content
yields neither `ioError` nor a silent empty result. -/
theorem load_error_taxonomy (content : FileContent) (tmp : Option FileContent)
    (s now : String) (v : JVal) :
    Storage.load ⟨some content, tmp⟩ true now = .error .ioError
    ∧ Storage.load ⟨some (.invalidText s), tmp⟩ false now = .error .corruptData
    ∧ ((∀ kvs, v ≠ .obj kvs) →
        Storage.load ⟨some (.jsonDoc v), tmp⟩ false now = .error .schemaError)
    ∧ (∀ kvs, dictGet? kvs "tasks" = none →
        Storage.load ⟨some (.jsonDoc (.obj kvs)), tmp⟩ false now = .error .schemaError)
    ∧ Storage.load ⟨some (.invalidText s), tmp⟩ false now ≠ .error .ioError
    ∧ Storage.load ⟨some (.invalidText s), tmp⟩ false now ≠ .error .schemaError
    ∧ Storage.load ⟨some (.invalidText s), tmp⟩ false now ≠ .ok []
    ∧ (StorageErr.corruptData ≠ .ioError ∧ StorageErr.corruptData ≠ .schemaError
       ∧ StorageErr.ioError ≠ .schemaError) := by
  refine ⟨rfl, rfl, ?_, ?_, ?_, ?_, ?_, by decide, by decide, by decide⟩
  · intro h
    cases v with
    | null => rfl
    | bool b => rfl
    | num n => rfl
    | str s => rfl
    | arr xs => rfl
    | obj kvs => exact absurd rfl (h kvs)
  · intro kvs hk
    simp [Storage.load, getTasksData, hk]
  · intro h
    exact absurd (Except.error.inj h) (by decide)
  · intro h
    exact absurd (Except.error.inj h) (by decide)
  · intro h
    exact Except.noConfusion h

/-- Witness for C3: the corrupt-file scenario and two schema failures. -/
theorem load_error_taxonomy_witness :
    Storage.load ⟨some (.invalidText "not a json"), none⟩ false "N"
      = .error .corruptData
    ∧ Storage.load ⟨some (.jsonDoc (.num 0)), none⟩ false "N" = .error .schemaError
    ∧ Storage.load ⟨some (.jsonDoc (.obj [("version", .str "1.0")])), none⟩ false "N"
        = .error .schemaError := by
  have h := load_error_taxonomy (.invalidText "not a json") none "not a json" "N" (.num 0)
  exact ⟨h.2.1, h.2.2.1 (fun kvs hh => by cases hh),
         h.2.2.2.1 [("version", .str "1.0")] rfl⟩

/-- The linear scan returns the head of the matching sublist. -/
theorem findById_eq_head_filter (ts : List Task) (i : String) :
    findById ts i = (ts.filter (fun t => t.id == i)).head? := by
  induction ts with
  | nil => rfl
  | cons t ts ih =>
      by_cases h : t.id = i
      · simp [findById, List.filter_cons, h]
      · simp [findById, List.filter_cons, h, ih]

/-- C8.  `get_task_by_id` returns the first task, in the order `load` yields
them, whose `id` equals the argument (the head of the matching sublist, hence
the earliest one when ids collide), and `None` exactly when no loaded task has
that id. -/
theorem getTaskById_first_match (fs : Fs) (readFault : Bool) (now i : String)
    (ts : List Task) (h : Storage.load fs readFault now = .ok ts) :
    Storage.getTaskById fs readFault now i
      = .ok ((ts.filter (fun t => t.id == i)).head?)
    ∧ ((ts.filter (fun t => t.id == i)).head? = none ↔ ∀ t ∈ ts, t.id ≠ i) := by
  constructor
  · simp [Storage.getTaskById, h, findById_eq_head_filter]
  · rw [List.head?_eq_none_iff, List.filter_eq_nil_iff]
    simp

/-- Witness for C8 on a file holding two tasks with the same id: the earlier
one is returned. -/
theorem getTaskById_first_match_witness :
    Storage.getTaskById
        ⟨some (.jsonDoc (saveDoc [{ id := "dup", description := "a", created := "c",
                                    completed := false, tags := [] },
                                  { id := "dup", description := "b", created := "c",
                                    completed := false, tags := [] }] "T")), none⟩
        false "N" "dup"
      = .ok (some { id := "dup", description := "a", created := "c",
                    completed := false, tags := [] }) := by
  have h := (getTaskById_first_match
    ⟨some (.jsonDoc (saveDoc [{ id := "dup", description := "a", created := "c",
                                completed := false, tags := [] },
                              { id := "dup", description := "b", created := "c",
                                completed := false, tags := [] }] "T")), none⟩
    false "N" "dup" _ (load_saveDoc _ none "T" "N")).1
  rw [h]
  rfl

/-- C9.  A parsed document whose `tasks` key holds JSON `null` makes `load`
fail with the same `schemaError` as a document with no `tasks` key at all:
`data.get("tasks")` returns `None` in both cases. -/
theorem load_null_tasks_schema_error (kvs : List (String × JVal))
    (tmp : Option FileContent) (now : String)
    (h : dictGet? kvs "tasks" = some JVal.null) :
    Storage.load ⟨some (.jsonDoc (.obj kvs)), tmp⟩ false now = .error .schemaError
    ∧ ∀ kvs' tmp' now', dictGet? kvs' "tasks" = none →
        Storage.load ⟨some (.jsonDoc (.obj kvs')), tmp'⟩ false now'
          = .error .schemaError := by
  constructor
  · simp [Storage.load, getTasksData, h]
  · intro kvs' tmp' now' h'
    simp [Storage.load, getTasksData, h']

/-- Witness for C9 at the document `{"tasks": null}`. -/
theorem load_null_tasks_schema_error_witness :
    dictGet? [("tasks", JVal.null)] "tasks" = some JVal.null
    ∧ Storage.load ⟨some (.jsonDoc (.obj [("tasks", JVal.null)])), none⟩ false "N"
        = .error .schemaError :=
  ⟨rfl, (load_null_tasks_schema_error [("tasks", JVal.null)] none "N" rfl).1⟩

/-- C10.  A `tags` value that is a string `s` decodes to the sequence of the
one-character substrings of `s` in order, not to the singleton `[s]`. -/
theorem fromDict_string_tags_chars (kvs : List (String × JVal)) (s now : String)
    (h : dictGet? kvs "tags" = some (.str s)) :
    ∃ t, Task.fromDict (.obj kvs) now = .ok t
      ∧ t.tags = s.toList.map (fun c => JVal.str (String.singleton c))
      ∧ (s.toList.length ≠ 1 → t.tags ≠ [JVal.str s]) := by
  have hd : dictGetD kvs "tags" (.arr []) = JVal.str s := by
    simp [dictGetD, h]
  refine ⟨{ id := pyStr (dictGetD kvs "id" (.str ""))
          , description := pyStr (dictGetD kvs "description" (.str ""))
          , created := pyStr (dictGetD kvs "created" (.str now))
          , completed := pyBool (dictGetD kvs "completed" (.bool false))
          , tags := s.toList.map (fun c => JVal.str (String.singleton c)) },
         ?_, rfl, ?_⟩
  · simp [Task.fromDict, hd, pyIter]
  · intro hlen hcontra
    apply hlen
    have hl := congrArg List.length hcontra
    simpa using hl

/-- Witness for C10 at `{"tags": "abc"}`. -/
theorem fromDict_string_tags_chars_witness :
    dictGet? [("tags", JVal.str "abc")] "tags" = some (JVal.str "abc")
    ∧ ∃ t, Task.fromDict (.obj [("tags", JVal.str "abc")]) "N" = .ok t
        ∧ t.tags = [JVal.str "a", JVal.str "b", JVal.str "c"] := by
  obtain ⟨t, ht, htags, -⟩ :=
    fromDict_string_tags_chars [("tags", JVal.str "abc")] "abc" "N" rfl
  exact ⟨rfl, t, ht, htags.trans rfl⟩

/-- Iteration only ever fails with `TypeError`. -/
theorem pyIter_error_typeError (v : JVal) (e : PyErr) (h : pyIter v = .error e) :
    e = .typeError := by
  cases v <;> simp [pyIter] at h <;> exact h.symm

/-- C5 counterexample: on the map `{"tags": 0}`, `from_dict` raises
`TypeError` (`list(0)` is not iterable), so it does not succeed on every
key-value map. -/
theorem fromDict_rejects_noniterable_tags :
    Task.fromDict (.obj [("tags", JVal.num 0)]) "N" = .error .typeError := rfl

/-- C5 (amended).  `from_dict` succeeds on every key-value map whose `tags`
value, when present, is iterable (a sequence, a string, or a mapping), with
the stated defaults for missing fields and string/truthiness/sequence coercion
for present ones; when `tags` is present with a non-iterable value (null, a
boolean, or a number) it raises an uncaught `TypeError`, which does abort a
`load` of a file containing such a record. -/
theorem fromDict_tolerant_amended (kvs : List (String × JVal)) (now : String) :
    (pyIterOk (dictGetD kvs "tags" (.arr [])) = true →
      ∃ t, Task.fromDict (.obj kvs) now = .ok t
        ∧ (dictGet? kvs "id" = none → t.id = "")
        ∧ (dictGet? kvs "description" = none → t.description = "")
        ∧ (dictGet? kvs "created" = none → t.created = now)
        ∧ (dictGet? kvs "completed" = none → t.completed = false)
        ∧ (dictGet? kvs "tags" = none → t.tags = [])
        ∧ t.id = pyStr (dictGetD kvs "id" (.str ""))
        ∧ t.description = pyStr (dictGetD kvs "description" (.str ""))
        ∧ t.created = pyStr (dictGetD kvs "created" (.str now))
        ∧ t.completed = pyBool (dictGetD kvs "completed" (.bool false))
        ∧ pyIter (dictGetD kvs "tags" (.arr [])) = .ok t.tags)
    ∧ (pyIterOk (dictGetD kvs "tags" (.arr [])) = false →
        Task.fromDict (.obj kvs) now = .error .typeError
        ∧ ∀ tmp rest, Storage.load
            ⟨some (.jsonDoc (.obj [("tasks", JVal.arr (JVal.obj kvs :: rest))])), tmp⟩
            false now = .error (.pyError .typeError)) := by
  constructor
  · intro hok
    cases heq : pyIter (dictGetD kvs "tags" (.arr [])) with
    | error e =>
        unfold pyIterOk at hok
        rw [heq] at hok
        cases hok
    | ok l =>
        refine ⟨{ id := pyStr (dictGetD kvs "id" (.str ""))
                , description := pyStr (dictGetD kvs "description" (.str ""))
                , created := pyStr (dictGetD kvs "created" (.str now))
                , completed := pyBool (dictGetD kvs "completed" (.bool false))
                , tags := l },
                by simp [Task.fromDict, heq],
                ?_, ?_, ?_, ?_, ?_, rfl, rfl, rfl, rfl, heq.symm ▸ rfl⟩
        · intro h0; simp [dictGetD, h0, pyStr]
        · intro h0; simp [dictGetD, h0, pyStr]
        · intro h0; simp [dictGetD, h0, pyStr]
        · intro h0; simp [dictGetD, h0, pyBool]
        · intro h0
          rw [dictGetD, h0] at heq
          simp [pyIter] at heq
          exact heq
  · intro hbad
    cases heq : pyIter (dictGetD kvs "tags" (.arr [])) with
    | ok l =>
        unfold pyIterOk at hbad
        rw [heq] at hbad
        cases hbad
    | error e =>
        have he : e = .typeError := pyIter_error_typeError _ e heq
        subst he
        have hfd : Task.fromDict (.obj kvs) now = .error .typeError := by
          simp [Task.fromDict, heq]
        refine ⟨hfd, ?_⟩
        intro tmp rest
        simp [Storage.load, getTasksData, dictGet?, pyIter, decodeList, hfd]

/-- Witness for C5 at the empty map: `FromMap({})` succeeds with empty
id/description, the injected current time, `completed = false`, empty tags. -/
theorem fromDict_tolerant_amended_witness :
    pyIterOk (dictGetD [] "tags" (.arr [])) = true
    ∧ ∃ t, Task.fromDict (.obj []) "N" = .ok t ∧ t.id = "" ∧ t.description = ""
        ∧ t.created = "N" ∧ t.completed = false ∧ t.tags = [] := by
  obtain ⟨t, ht, hid, hdesc, hcreated, hcompleted, htags, -⟩ :=
    (fromDict_tolerant_amended [] "N").1 rfl
  exact ⟨rfl, t, ht, hid rfl, hdesc rfl, hcreated rfl, hcompleted rfl, htags rfl⟩

end Tasks5
